import Mathlib

/-!
Verification of the PoC RPC round coordinator
(`client/consensus/poc/rpc/src/lib.rs`).

The unit consists of three parts:

* a subscriber registry: `notification_senders`, a mutex-guarded vector of
  channel senders, appended to by `subscribe_slot_info` (line 229) and never
  shrunk; `unsubscribe_slot_info` (lines 237-239) cancels the subscription
  through the `SubscriptionManager`, which drops the receiving side of the
  outlet's channel, so later sends on that outlet fail;
* a per-round aggregator: the async block spawned per slot event
  (lines 144-197) broadcasts the slot info to every sender, counts the
  successful deliveries into `expected_solutions_count`, and then races a
  `futures_timer::Delay` of `SOLUTION_TIMEOUT` against a collection loop over
  `solution_receiver`;
* the submission entry point `propose_proof_of_space` (lines 214-224), which
  looks the slot up in `solution_senders` and silently does nothing when it
  is absent.

The embedding below models the registry as a list of outlets carrying a
`closed` flag (sends on a closed outlet fail), a round's observable history as
a list of `RoundMsg` (submissions in arrival order, interleaved with the
firing of the deadline timer), and the dispatch loop as a recursion over the
list of slot events.  Machine integers: `expected_solutions_count` and
`potential_solutions_left` are Rust `usize` values; their decrement is modelled
with an explicit wrap modulo `2 ^ 64`.
-/

namespace PoCRpc

/-- Modulus of Rust's `usize` on a 64-bit target. -/
def USIZE_MOD : Nat := 2 ^ 64

/-- Wrapping `usize` decrement, the semantics of `x -= 1` on a `usize`
(release build): `0` wraps around to `USIZE_MOD - 1`. -/
def usizeSub1 (n : Nat) : Nat := (n + (USIZE_MOD - 1)) % USIZE_MOD

/-- `NewSlotInfo` (lines 22-30): slot number, challenge bytes and the
acceptable solution range.  These are the round's public fields, sent to every
subscriber. -/
structure NewSlotInfo where
  slot_number : Nat
  challenge : List Nat
  solution_range : Nat
deriving DecidableEq

/-- `RpcSolution` (lines 77-84): a solution as submitted over RPC. -/
structure RpcSolution where
  public_key : List Nat
  nonce : Nat
  encoding : List Nat
  signature : List Nat
  tag : List Nat
deriving DecidableEq

/-- `Solution` (lines 35-42): the solution delivered to the consensus side,
with the public key turned into a `FarmerId` via `FarmerId::from_slice`
(byte-identical, lines 170-176). -/
structure Solution where
  public_key : List Nat
  nonce : Nat
  encoding : List Nat
  signature : List Nat
  tag : List Nat
deriving DecidableEq

/-- The conversion performed at lines 170-176 when a submission carries a
solution. -/
def solutionFromRpc (s : RpcSolution) : Solution :=
  { public_key := s.public_key, nonce := s.nonce, encoding := s.encoding,
    signature := s.signature, tag := s.tag }

/-- `ProposedProofOfSpaceResult` (lines 86-90): argument of
`propose_proof_of_space`. -/
structure ProposedProofOfSpaceResult where
  slot_number : Nat
  solution : Option RpcSolution
deriving DecidableEq

/-- `SOLUTION_TIMEOUT` (line 72): `Duration::from_secs(5)`, in seconds. -/
def SOLUTION_TIMEOUT : Nat := 5

/-- One entry of `notification_senders`: an unbounded channel sender.  `id` is
the subscription id under which it was registered; `closed` records whether
the receiving side has been dropped (an unsubscribed or disconnected client),
in which case `send` returns an error (line 157). -/
structure Outlet where
  id : Nat
  closed : Bool
deriving DecidableEq

/-- The registry `notification_senders` (line 118): a vector of outlets in
registration order. -/
abbrev Registry := List Outlet

/-- `subscribe_slot_info` (lines 226-235): pushes a fresh (open) sender onto
`notification_senders`. -/
def subscribe_slot_info (reg : Registry) (i : Nat) : Registry :=
  reg ++ [{ id := i, closed := false }]

/-- `unsubscribe_slot_info` (lines 237-239) calls `manager.cancel(id)`, which
drops the subscription's sink task and with it the receiving side of the
outlet's channel.  The sender itself stays in `notification_senders` (the
vector is only ever pushed to), but every later send on it fails: modelled by
setting `closed`. -/
def unsubscribe_slot_info (reg : Registry) (i : Nat) : Registry :=
  reg.map fun o => if o.id = i then { o with closed := true } else o

/-- The RPC result of `unsubscribe_slot_info`: `Ok(manager.cancel(id))`, i.e.
`Ok true` iff an active subscription with that id existed.  Never an error. -/
def unsubscribe_result (reg : Registry) (i : Nat) : Except String Bool :=
  Except.ok (reg.any fun o => o.id == i && !o.closed)

/-- One iteration of the broadcast loop (lines 156-160): a failed send
decrements `expected_solutions_count` and delivers nothing; a successful send
delivers the slot info to that outlet. -/
def broadcastStep (info : NewSlotInfo) (acc : Nat × List (Nat × NewSlotInfo))
    (o : Outlet) : Nat × List (Nat × NewSlotInfo) :=
  if o.closed then (acc.1 - 1, acc.2) else (acc.1, acc.2 ++ [(o.id, info)])

/-- The broadcast phase (lines 150-161): `expected_solutions_count` starts at
`notification_senders.len()` and is decremented for every outlet whose send
fails; deliveries happen in registration order.  Returns the final count and
the list of performed deliveries (outlet id paired with the payload). -/
def broadcast (info : NewSlotInfo) (reg : Registry) :
    Nat × List (Nat × NewSlotInfo) :=
  reg.foldl (broadcastStep info) (reg.length, [])

/-- An observable event of one open round: a submission arriving on
`solution_receiver` (in arrival order), or the `SOLUTION_TIMEOUT` timer
firing. -/
inductive RoundMsg where
  | submit (s : Option RpcSolution)
  | deadline
deriving DecidableEq

/-- Result of scanning a round's event history: either the round resolved to
an outcome, or the history ran out while the round was still open with the
given counter value. -/
inductive RoundStatus where
  | resolved (o : Option Solution)
  | waiting (remaining : Nat)
deriving DecidableEq

/-- The race at lines 163-190: the collection loop over `solution_receiver`
(initial counter `remaining = expected_solutions_count`) raced against the
deadline timer, applied to the round's event history in order.
A submission with a solution resolves the round at once (lines 169-177); a
`None` submission decrements `potential_solutions_left` (a `usize`, hence the
wrapping decrement) and the loop breaks with outcome `None` when the counter
reaches zero (lines 178-181); the deadline firing resolves to `None`
(line 163, `Either::Left`). -/
def collect (remaining : Nat) : List RoundMsg → RoundStatus
  | [] => RoundStatus.waiting remaining
  | RoundMsg.deadline :: _ => RoundStatus.resolved none
  | RoundMsg.submit (some s) :: _ => RoundStatus.resolved (some (solutionFromRpc s))
  | RoundMsg.submit none :: rest =>
    if usizeSub1 remaining = 0 then RoundStatus.resolved none
    else collect (usizeSub1 remaining) rest

/-- Instrumentation of the same loop: `true` iff some `None` submission is
decremented while `potential_solutions_left` is already `0` (the `usize`
underflow at line 178). -/
def decrementsOnZero (remaining : Nat) : List RoundMsg → Bool
  | [] => false
  | RoundMsg.deadline :: _ => false
  | RoundMsg.submit (some _) :: _ => false
  | RoundMsg.submit none :: rest =>
    if remaining = 0 then true
    else if usizeSub1 remaining = 0 then false
    else decrementsOnZero (usizeSub1 remaining) rest

/-- The key set of `solution_senders` (line 119): slots that have a pending
round entry. -/
abbrev PendingMap := List Nat

/-- `solution_senders.lock().insert(slot, sender)` (line 147), on the key
set. -/
def insertSlot (m : PendingMap) (s : Nat) : PendingMap :=
  if m.contains s then m else m ++ [s]

/-- `solution_senders.lock().remove(&slot)` (line 196), on the key set. -/
def removeSlot (m : PendingMap) (s : Nat) : PendingMap :=
  m.filter fun x => x != s

/-- What one iteration of the dispatch loop produces for one slot event:
the outcome sent on `sync_solution_sender`, the number of sends performed on
it, and the `solution_senders` / `notification_senders` state afterwards. -/
structure RoundResult where
  outcome : Option Solution
  replySends : Nat
  pending : PendingMap
  registry : Registry
deriving DecidableEq

/-- One iteration of the dispatch loop (lines 144-197) for the event
`(info, sync_solution_sender)`, given the round's event history `trace`:

1. insert the slot into `solution_senders` (line 147);
2. if `notification_senders` is empty, send `None` on the reply channel and
   return early (lines 152-155) — note: this path does *not* execute the
   `remove` at line 196, the pending entry stays;
3. otherwise broadcast (lines 156-160), race the collection loop against the
   timer (lines 163-190), send the outcome (line 192) and remove the pending
   entry (line 196).

`none` means the history `trace` ended while the round was still open (the
real loop would still be blocked waiting for the timer). -/
def processRound (reg : Registry) (pending : PendingMap) (info : NewSlotInfo)
    (trace : List RoundMsg) : Option RoundResult :=
  if reg.length = 0 then
    some { outcome := none, replySends := 1,
           pending := insertSlot pending info.slot_number, registry := reg }
  else
    match collect (broadcast info reg).1 trace with
    | RoundStatus.resolved o =>
      some { outcome := o, replySends := 1,
             pending := removeSlot (insertSlot pending info.slot_number) info.slot_number,
             registry := reg }
    | RoundStatus.waiting _ => none

/-- The dispatch loop (lines 143-199): `while let Ok(..) = new_slot_notifier.recv()`,
one `processRound` per received event, threading `solution_senders` through.
Returns the final pending map and, per consumed event, the outcome and the
number of reply-channel sends. -/
def runLoop (reg : Registry) :
    PendingMap → List (NewSlotInfo × List RoundMsg) →
    Option (PendingMap × List (Option Solution × Nat))
  | pending, [] => some (pending, [])
  | pending, e :: rest =>
    match processRound reg pending e.1 e.2 with
    | none => none
    | some r =>
      match runLoop reg r.pending rest with
      | none => none
      | some pr => some (pr.1, (r.outcome, r.replySends) :: pr.2)

/-- `propose_proof_of_space` (lines 214-224): looks the slot up in
`solution_senders`; if present the submission is forwarded to the round's
inlet, otherwise nothing happens.  Returns the (unchanged) map, whether the
submission was routed to a pending round, and the RPC result — always
`Ok(())`. -/
def propose_proof_of_space (pending : PendingMap) (p : ProposedProofOfSpaceResult) :
    PendingMap × Bool × Except String Unit :=
  (pending, pending.contains p.slot_number, Except.ok ())

/-- The arguments of `PoCRpcHandler::new` (lines 125-131): an executor and the
`new_slot_notifier` (modelled by the events its receiver will yield, each with
its round history).  There is no duration among them. -/
structure NewArgs where
  executor : Unit
  new_slot_notifier : List (NewSlotInfo × List RoundMsg)

/-- The deadline duration the handler uses for a round: always the constant
`SOLUTION_TIMEOUT` (line 163 passes the line-72 `const` to
`futures_timer::Delay::new`), whatever the constructor arguments and the
round. -/
def roundTimeout (a : NewArgs) (info : NewSlotInfo) : Nat := SOLUTION_TIMEOUT

/-- A concrete slot event used by witnesses. -/
def exInfo : NewSlotInfo :=
  { slot_number := 5, challenge := [1, 2, 3, 4, 5, 6, 7, 8], solution_range := 100 }

/-- A concrete submitted solution used by witnesses. -/
def exRpcSolution : RpcSolution :=
  { public_key := List.replicate 32 7, nonce := 42, encoding := [1, 2],
    signature := [3, 4], tag := List.replicate 8 9 }

/-! ## Arithmetic of the wrapping decrement -/

/-- For a positive `usize` value (every real value fits below `2 ^ 64`),
the wrapping decrement is the ordinary one. -/
theorem usizeSub1_of_pos (n : Nat) (h1 : 1 ≤ n) (h2 : n < USIZE_MOD) :
    usizeSub1 n = n - 1 := by
  have hm : USIZE_MOD = 18446744073709551616 := by norm_num [USIZE_MOD]
  rw [hm] at h2
  simp only [usizeSub1, hm]
  omega

/-! ## Behaviour of the collection loop -/

/-- A history that starts with `k` `None` submissions, `k` strictly below the
counter, just decrements the counter `k` times. -/
theorem collect_replicate (k : Nat) : ∀ n, k < n → n < USIZE_MOD →
    ∀ t, collect n (List.replicate k (RoundMsg.submit none) ++ t) = collect (n - k) t := by
  induction k with
  | zero => intro n h1 h2 t; simp
  | succ k ih =>
    intro n h1 h2 t
    rw [List.replicate_succ]
    simp only [List.cons_append, collect]
    rw [usizeSub1_of_pos n (by omega) h2]
    rw [if_neg (by omega : ¬ n - 1 = 0)]
    have h4 := ih (n - 1) (by omega) (by omega) t
    simp only [List.append_eq]
    rw [h4]
    have h3 : n - 1 - k = n - (k + 1) := by omega
    rw [h3]

/-- Once the loop has resolved, whatever arrives later does not change the
outcome. -/
theorem collect_resolved_append (pre : List RoundMsg) : ∀ n o l,
    collect n pre = RoundStatus.resolved o →
    collect n (pre ++ l) = RoundStatus.resolved o := by
  induction pre with
  | nil => intro n o l h; simp [collect] at h
  | cons a rest ih =>
    intro n o l h
    cases a with
    | deadline =>
      simp only [collect] at h
      simpa [collect] using h
    | submit s =>
      cases s with
      | some sol =>
        simp only [collect] at h
        simpa [collect] using h
      | none =>
        simp only [List.cons_append, collect] at h ⊢
        by_cases hz : usizeSub1 n = 0
        · rw [if_pos hz] at h ⊢; exact h
        · rw [if_neg hz] at h ⊢; exact ih _ _ _ h

/-- A history after which the loop is still open scans on, with the counter it
had reached. -/
theorem collect_waiting_append (pre : List RoundMsg) : ∀ n m l,
    collect n pre = RoundStatus.waiting m →
    collect n (pre ++ l) = collect m l := by
  induction pre with
  | nil =>
    intro n m l h
    simp only [collect] at h
    injection h with h2
    subst h2
    simp
  | cons a rest ih =>
    intro n m l h
    cases a with
    | deadline => simp [collect] at h
    | submit s =>
      cases s with
      | some sol => simp [collect] at h
      | none =>
        simp only [List.cons_append, collect] at h ⊢
        by_cases hz : usizeSub1 n = 0
        · rw [if_pos hz] at h; exact absurd h (by simp)
        · rw [if_neg hz] at h ⊢; exact ih _ _ _ h

/-- The timer always resolves the round: a history containing the deadline
event yields an outcome, whatever the counter. -/
theorem collect_total (t : List RoundMsg) : ∀ n, RoundMsg.deadline ∈ t →
    ∃ o, collect n t = RoundStatus.resolved o := by
  induction t with
  | nil => intro n h; simp at h
  | cons a rest ih =>
    intro n h
    cases a with
    | deadline => exact ⟨none, by simp [collect]⟩
    | submit s =>
      have hmem : RoundMsg.deadline ∈ rest := by
        rcases List.mem_cons.mp h with h1 | h1
        · exact absurd h1 (by simp)
        · exact h1
      cases s with
      | some sol => exact ⟨some (solutionFromRpc sol), by simp [collect]⟩
      | none =>
        by_cases hz : usizeSub1 n = 0
        · exact ⟨none, by simp [collect, hz]⟩
        · obtain ⟨o, ho⟩ := ih (usizeSub1 n) hmem
          refine ⟨o, ?_⟩
          simp only [collect]
          rw [if_neg hz]
          exact ho

/-- With a positive counter the loop never decrements past zero: it breaks
exactly when the counter reaches zero. -/
theorem decrementsOnZero_of_pos (t : List RoundMsg) : ∀ n, 1 ≤ n → n < USIZE_MOD →
    decrementsOnZero n t = false := by
  induction t with
  | nil => intro n h1 h2; simp [decrementsOnZero]
  | cons a rest ih =>
    intro n h1 h2
    cases a with
    | deadline => simp [decrementsOnZero]
    | submit s =>
      cases s with
      | some sol => simp [decrementsOnZero]
      | none =>
        have hs : usizeSub1 n = n - 1 := usizeSub1_of_pos n h1 h2
        simp only [decrementsOnZero]
        rw [if_neg (by omega : ¬ n = 0)]
        by_cases hz : usizeSub1 n = 0
        · rw [if_pos hz]
        · rw [if_neg hz]
          rw [hs] at hz ⊢
          exact ih (n - 1) (by omega) (by omega)

/-! ## Behaviour of the broadcast phase -/

/-- The broadcast fold, for an arbitrary starting count and delivery list. -/
theorem broadcast_foldl (info : NewSlotInfo) (l : List Outlet) : ∀ c d,
    l.foldl (broadcastStep info) (c, d)
      = (c - (l.filter fun o => o.closed).length,
         d ++ (l.filter fun o => !o.closed).map fun o => (o.id, info)) := by
  induction l with
  | nil => intro c d; simp
  | cons o rest ih =>
    intro c d
    simp only [List.foldl_cons, broadcastStep]
    by_cases hc : o.closed = true
    · rw [if_pos hc, ih]
      have h3 : c - 1 - (List.filter (fun o => o.closed) rest).length
          = c - ((List.filter (fun o => o.closed) rest).length + 1) := by omega
      simp [List.filter_cons, hc, h3]
    · rw [Bool.not_eq_true] at hc
      rw [if_neg (by simp [hc]), ih]
      simp [List.filter_cons, hc]

/-- The count returned by the broadcast: the length of the registry minus the
failed deliveries. -/
theorem broadcast_fst (info : NewSlotInfo) (reg : Registry) :
    (broadcast info reg).1 = reg.length - (reg.filter fun o => o.closed).length := by
  rw [broadcast, broadcast_foldl]

/-- The deliveries performed by the broadcast: the open outlets, in
registration order, each receiving the round's public fields. -/
theorem broadcast_snd (info : NewSlotInfo) (reg : Registry) :
    (broadcast info reg).2 = (reg.filter fun o => !o.closed).map fun o => (o.id, info) := by
  rw [broadcast, broadcast_foldl]
  simp

/-- Length minus failures equals the number of open outlets. -/
theorem length_sub_closed (reg : Registry) :
    reg.length - (reg.filter fun o => o.closed).length
      = (reg.filter fun o => !o.closed).length := by
  induction reg with
  | nil => simp
  | cons o rest ih =>
    have hle := List.length_filter_le (fun o : Outlet => o.closed) rest
    simp only [List.filter_cons, List.length_cons]
    by_cases hc : o.closed = true
    · simp only [hc, Bool.not_true, if_true, Bool.false_eq_true, if_false,
        List.length_cons]
      omega
    · rw [Bool.not_eq_true] at hc
      simp only [hc, Bool.not_false, Bool.false_eq_true, if_false, if_true,
        List.length_cons]
      omega

/-! ## Behaviour of one dispatch iteration -/

/-- If the round's history contains the deadline event, the dispatch iteration
terminates, sends exactly one outcome on the reply channel and leaves the
registry untouched. -/
theorem processRound_resolves (reg : Registry) (pending : PendingMap)
    (info : NewSlotInfo) (trace : List RoundMsg)
    (h : RoundMsg.deadline ∈ trace) :
    ∃ r, processRound reg pending info trace = some r
      ∧ r.replySends = 1 ∧ r.registry = reg := by
  by_cases hreg : reg.length = 0
  · refine ⟨(⟨none, 1, insertSlot pending info.slot_number, reg⟩ : RoundResult),
      ?_, rfl, rfl⟩
    simp only [processRound]
    rw [if_pos hreg]
  · obtain ⟨o, ho⟩ := collect_total trace (broadcast info reg).1 h
    refine ⟨(⟨o, 1, removeSlot (insertSlot pending info.slot_number) info.slot_number,
        reg⟩ : RoundResult), ?_, rfl, rfl⟩
    simp only [processRound]
    rw [if_neg hreg, ho]

/-! ## The claims -/

/-- C1: for every slot event consumed by the dispatch loop, exactly one
outcome (`Some(solution)` or `None`) is produced and written to that event's
reply channel — one reply-channel send per event, never zero or two — whatever
the submissions and however each round resolves.  The hypothesis that every
round's history contains the `deadline` event models that the
`futures_timer::Delay` always eventually fires. -/
theorem C1_one_outcome_per_event (reg : Registry) (pending : PendingMap)
    (events : List (NewSlotInfo × List RoundMsg))
    (h : ∀ e ∈ events, RoundMsg.deadline ∈ e.2) :
    ∃ pend outs, runLoop reg pending events = some (pend, outs)
      ∧ outs.length = events.length ∧ ∀ x ∈ outs, x.2 = 1 := by
  induction events generalizing pending with
  | nil => exact ⟨pending, [], rfl, rfl, by simp⟩
  | cons e rest ih =>
    obtain ⟨r, hr, hr1, hrreg⟩ :=
      processRound_resolves reg pending e.1 e.2 (h e (by simp))
    obtain ⟨p2, outs, hrun, hlen, hones⟩ :=
      ih r.pending (fun x hx => h x (by simp [hx]))
    refine ⟨p2, (r.outcome, r.replySends) :: outs, ?_, by simp [hlen], ?_⟩
    · simp only [runLoop, hr, hrun]
    · intro x hx
      rcases List.mem_cons.mp hx with h1 | h1
      · rw [h1]; exact hr1
      · exact hones x h1

/-- C1 witness: a one-event feed with one live subscriber and an unanswered
round closed by the timer. -/
theorem C1_one_outcome_per_event_witness :
    ∃ pend outs,
      runLoop [⟨1, false⟩] [] [(exInfo, [RoundMsg.deadline])] = some (pend, outs)
      ∧ outs.length = [(exInfo, [RoundMsg.deadline])].length
      ∧ ∀ x ∈ outs, x.2 = 1 :=
  C1_one_outcome_per_event [⟨1, false⟩] [] [(exInfo, [RoundMsg.deadline])]
    (by decide)

/-- C2: for a round with counter `n = notified_count ≥ 1` (`n` a `usize`,
hence below `2 ^ 64`), the outcome is a function of the submission sequence:
`k < n` leading `None` submissions leave the round open with counter `n - k`;
the first submission carrying a solution then resolves the round to it,
whatever arrives later; and the `n`-th `None` submission resolves the round to
`None` at once, without a deadline event. -/
theorem C2_aggregator_state_machine (n k : Nat) (s : RpcSolution)
    (rest1 rest2 : List RoundMsg)
    (hn : 1 ≤ n) (hw : n < USIZE_MOD) (hk : k < n) :
    collect n (List.replicate k (RoundMsg.submit none)
        ++ RoundMsg.submit (some s) :: rest1)
      = RoundStatus.resolved (some (solutionFromRpc s))
  ∧ collect n (List.replicate k (RoundMsg.submit none))
      = RoundStatus.waiting (n - k)
  ∧ collect n (List.replicate n (RoundMsg.submit none) ++ rest2)
      = RoundStatus.resolved none := by
  refine ⟨?_, ?_, ?_⟩
  · rw [collect_replicate k n hk hw]
    simp [collect]
  · have h2 := collect_replicate k n hk hw []
    simpa [collect] using h2
  · obtain ⟨nn, hnn⟩ : ∃ nn, n = nn + 1 := ⟨n - 1, by omega⟩
    subst hnn
    rw [List.replicate_succ', List.append_assoc,
      collect_replicate nn (nn + 1) (by omega) hw]
    have h1 : nn + 1 - nn = 1 := by omega
    rw [h1]
    simp only [List.singleton_append, collect]
    rw [if_pos (by rw [usizeSub1_of_pos 1 (by omega) (by omega)])]

/-- C2 witness: `n = 3`, two `None` submissions, then a solution (with a
further submission after it), and the all-`None` exhaustion path. -/
theorem C2_aggregator_state_machine_witness :
    collect 3 (List.replicate 2 (RoundMsg.submit none)
        ++ RoundMsg.submit (some exRpcSolution) :: [RoundMsg.submit none])
      = RoundStatus.resolved (some (solutionFromRpc exRpcSolution))
  ∧ collect 3 (List.replicate 2 (RoundMsg.submit none))
      = RoundStatus.waiting (3 - 2)
  ∧ collect 3 (List.replicate 3 (RoundMsg.submit none) ++ [RoundMsg.deadline])
      = RoundStatus.resolved none :=
  C2_aggregator_state_machine 3 2 exRpcSolution [RoundMsg.submit none]
    [RoundMsg.deadline] (by decide) (by decide) (by decide)

/-- C3: the pending-round entry is NOT removed on every exit path.  On the
zero-subscriber path (empty registry) the early `return` at lines 152-155
skips the `remove` at line 196 and the entry for the slot survives the round;
on the other exit paths (here: deadline) it is removed. -/
theorem C3_pending_entry_leak :
    Option.map RoundResult.pending (processRound [] [] exInfo [RoundMsg.deadline])
      = some [5]
  ∧ Option.map RoundResult.pending
      (processRound [⟨1, false⟩] [] exInfo [RoundMsg.deadline]) = some [] := by
  decide

/-- C4 counterexample: `notified_count == 0` does NOT imply immediate
resolution.  A registry holding one subscribed-then-unsubscribed outlet has
length 1, so the line-152 fast-path check (`notification_senders.len() == 0`)
is not taken; the delivery fails, so the broadcast count — the claim's
`notified_count` — is 0, yet the line-163 timer is started: with no events the
round is still open (`processRound` is `none`), and it resolves only when the
deadline fires. -/
theorem C4_counterexample :
    (broadcast exInfo (unsubscribe_slot_info (subscribe_slot_info [] 1) 1)).1 = 0
  ∧ processRound (unsubscribe_slot_info (subscribe_slot_info [] 1) 1) [] exInfo []
      = none
  ∧ processRound (unsubscribe_slot_info (subscribe_slot_info [] 1) 1) [] exInfo
      [RoundMsg.deadline]
      = some ⟨none, 1, [], unsubscribe_slot_info (subscribe_slot_info [] 1) 1⟩ := by
  decide

/-- C4 as amended: the immediate no-timer resolution to `None` happens exactly
when the registry itself is empty (the line-152 check reads
`notification_senders.len()`, not the post-broadcast count): with an empty
registry the round resolves at once, for every history, deadline or not.  When
the registry is non-empty but every delivery fails — so `notified_count` is 0
all the same — the fast path is not taken: the timer is started, the round
stays open on an empty history and resolves to `None` only when the deadline
fires. -/
theorem C4_fast_path_requires_empty_registry (pending : PendingMap)
    (info : NewSlotInfo) (trace rest : List RoundMsg) (reg : Registry)
    (hne : reg ≠ []) (hall : ∀ o ∈ reg, o.closed = true) :
    processRound [] pending info trace
      = some ⟨none, 1, insertSlot pending info.slot_number, []⟩
  ∧ (broadcast info reg).1 = 0
  ∧ processRound reg pending info [] = none
  ∧ processRound reg pending info (RoundMsg.deadline :: rest)
      = some ⟨none, 1,
          removeSlot (insertSlot pending info.slot_number) info.slot_number,
          reg⟩ := by
  have hlen : ¬ reg.length = 0 := by
    simp only [List.length_eq_zero]
    exact hne
  refine ⟨rfl, ?_, ?_, ?_⟩
  · rw [broadcast_fst, List.filter_eq_self.mpr hall, Nat.sub_self]
  · simp only [processRound]
    rw [if_neg hlen]
    simp [collect]
  · simp only [processRound]
    rw [if_neg hlen]
    simp [collect]

/-- C4 witness: the empty registry on one side, a one-dead-outlet registry on
the other. -/
theorem C4_fast_path_requires_empty_registry_witness :
    processRound [] [] exInfo []
      = some ⟨none, 1, insertSlot [] exInfo.slot_number, []⟩
  ∧ (broadcast exInfo [⟨1, true⟩]).1 = 0
  ∧ processRound [⟨1, true⟩] [] exInfo [] = none
  ∧ processRound [⟨1, true⟩] [] exInfo (RoundMsg.deadline :: [])
      = some ⟨none, 1,
          removeSlot (insertSlot [] exInfo.slot_number) exInfo.slot_number,
          [⟨1, true⟩]⟩ :=
  C4_fast_path_requires_empty_registry [] exInfo [] [] [⟨1, true⟩]
    (by decide) (by decide)

/-- C5: if the deadline fires while the round is still open (history `pre`
left the loop waiting), the round resolves to `None` regardless of the
remaining counter; and any history containing the deadline event reaches a
terminal outcome — the timer bounds every round's lifetime. -/
theorem C5_deadline_resolves (n m : Nat) (pre rest trace : List RoundMsg)
    (hopen : collect n pre = RoundStatus.waiting m)
    (hdl : RoundMsg.deadline ∈ trace) :
    collect n (pre ++ RoundMsg.deadline :: rest) = RoundStatus.resolved none
  ∧ ∃ o, collect n trace = RoundStatus.resolved o := by
  constructor
  · rw [collect_waiting_append pre n m _ hopen]
    simp [collect]
  · exact collect_total trace n hdl

/-- C5 witness: two notified subscribers, one `None` submission, then the
deadline. -/
theorem C5_deadline_resolves_witness :
    collect 2 ([RoundMsg.submit none] ++ RoundMsg.deadline :: [])
      = RoundStatus.resolved none
  ∧ ∃ o, collect 2 [RoundMsg.deadline] = RoundStatus.resolved o :=
  C5_deadline_resolves 2 1 [RoundMsg.submit none] [] [RoundMsg.deadline]
    (by decide) (by decide)

/-- C6: the broadcast count is the registry length minus the failed
deliveries, i.e. the number of live outlets; the deliveries are exactly the
round's public fields to every live outlet in registration order; an empty
registry yields count 0 and no deliveries; and the registry is unchanged by
the round (failed outlets are not removed). -/
theorem C6_broadcast_spec (info : NewSlotInfo) (reg : Registry) :
    (broadcast info reg).1 = reg.length - (reg.filter fun o => o.closed).length
  ∧ (broadcast info reg).1 = (reg.filter fun o => !o.closed).length
  ∧ (broadcast info reg).2 = (reg.filter fun o => !o.closed).map (fun o => (o.id, info))
  ∧ broadcast info [] = (0, [])
  ∧ (∀ pending trace res, processRound reg pending info trace = some res →
      res.registry = reg) := by
  refine ⟨broadcast_fst info reg, ?_, broadcast_snd info reg, rfl, ?_⟩
  · rw [broadcast_fst info reg, length_sub_closed]
  · intro pending trace res h
    simp only [processRound] at h
    split at h
    · injection h with h2
      rw [← h2]
    · split at h
      · injection h with h2
        rw [← h2]
      · exact absurd h (by simp)

/-- C6 witness: a one-outlet registry, a round closed by the timer: the
registry after the round is the one before. -/
theorem C6_broadcast_spec_witness :
    RoundResult.registry ⟨none, 1, [], [⟨1, false⟩]⟩ = [⟨1, false⟩] :=
  (C6_broadcast_spec exInfo [⟨1, false⟩]).2.2.2.2 [] [RoundMsg.deadline]
    ⟨none, 1, [], [⟨1, false⟩]⟩ (by decide)

/-- C7: a submission whose slot has no pending entry is a no-op: nothing is
routed, the caller gets `Ok(())`, the map is unchanged; and a round that has
already resolved keeps its outcome whatever is submitted afterwards. -/
theorem C7_stale_submission_noop (pending : PendingMap)
    (p : ProposedProofOfSpaceResult) (n : Nat) (pre : List RoundMsg)
    (o : Option Solution)
    (h : pending.contains p.slot_number = false)
    (hres : collect n pre = RoundStatus.resolved o) :
    propose_proof_of_space pending p = (pending, false, Except.ok ())
  ∧ collect n (pre ++ [RoundMsg.submit p.solution]) = RoundStatus.resolved o := by
  constructor
  · simp only [propose_proof_of_space]
    rw [h]
  · exact collect_resolved_append pre n o _ hres

/-- C7 witness: slot 5 has no pending entry (only slot 3 does); a round
already resolved by the timer is unaffected by the late submission. -/
theorem C7_stale_submission_noop_witness :
    propose_proof_of_space [3] ⟨5, none⟩ = ([3], false, Except.ok ())
  ∧ collect 1 ([RoundMsg.deadline]
        ++ [RoundMsg.submit (ProposedProofOfSpaceResult.solution ⟨5, none⟩)])
      = RoundStatus.resolved none :=
  C7_stale_submission_noop [3] ⟨5, none⟩ 1 [RoundMsg.deadline] none
    (by decide) (by decide)

/-! ## Unsubscription -/

/-- Unsubscribing twice is the same as unsubscribing once. -/
theorem unsubscribe_idem (reg : Registry) (i : Nat) :
    unsubscribe_slot_info (unsubscribe_slot_info reg i) i
      = unsubscribe_slot_info reg i := by
  induction reg with
  | nil => rfl
  | cons o rest ih =>
    simp only [unsubscribe_slot_info, List.map_cons] at ih ⊢
    rw [ih]
    by_cases hi : o.id = i
    · simp [hi]
    · simp [hi]

/-- Unsubscribing an id that is no longer live reports `Ok false`: no
error. -/
theorem unsubscribe_result_removed (reg : Registry) (i : Nat) :
    unsubscribe_result (unsubscribe_slot_info reg i) i = Except.ok false := by
  simp only [unsubscribe_result, unsubscribe_slot_info]
  congr 1
  induction reg with
  | nil => rfl
  | cons o rest ih =>
    simp only [List.map_cons, List.any_cons]
    rw [ih]
    by_cases hi : o.id = i
    · simp [hi]
    · simp [hi]

/-- After unsubscribing, no broadcast delivers to the removed id. -/
theorem unsubscribe_not_delivered (info : NewSlotInfo) (reg : Registry) (i : Nat) :
    ∀ p ∈ (broadcast info (unsubscribe_slot_info reg i)).2, p.1 ≠ i := by
  intro p hp
  rw [broadcast_snd] at hp
  simp only [List.mem_map, List.mem_filter] at hp
  obtain ⟨o, ⟨hmem, hlive⟩, hpo⟩ := hp
  simp only [unsubscribe_slot_info, List.mem_map] at hmem
  obtain ⟨o0, hmem0, ho0⟩ := hmem
  subst ho0
  by_cases hi : o0.id = i
  · simp [hi] at hlive
  · rw [← hpo]
    simp [hi]

/-- C8: unsubscribing removes the outlet from the live set: it is idempotent,
surfaces no error even when the id was already removed (`Ok false`), and after
removal the outlet receives no delivery from any subsequent broadcast and so
is not part of the live set of later rounds. -/
theorem C8_unsubscribe_spec (info : NewSlotInfo) (reg : Registry) (i : Nat) :
    unsubscribe_slot_info (unsubscribe_slot_info reg i) i
      = unsubscribe_slot_info reg i
  ∧ (∃ b, unsubscribe_result reg i = Except.ok b)
  ∧ unsubscribe_result (unsubscribe_slot_info reg i) i = Except.ok false
  ∧ ∀ p ∈ (broadcast info (unsubscribe_slot_info reg i)).2, p.1 ≠ i :=
  ⟨unsubscribe_idem reg i, ⟨_, rfl⟩, unsubscribe_result_removed reg i,
   unsubscribe_not_delivered info reg i⟩

/-- C8 witness: with outlets 1 and 2 registered and outlet 1 unsubscribed, the
delivery that does happen goes to outlet 2. -/
theorem C8_unsubscribe_spec_witness : ((2 : Nat), exInfo).1 ≠ 1 :=
  (C8_unsubscribe_spec exInfo [⟨1, false⟩, ⟨2, false⟩] 1).2.2.2 (2, exInfo)
    (by decide)

/-- C9 counterexample: the deadline is not configurable — no choice of
constructor arguments or round makes `roundTimeout` differ from any other;
`PoCRpcHandler::new` has no duration parameter and line 163 always uses the
line-72 `const`. -/
theorem C9_counterexample :
    ¬ ∃ a b : NewArgs, ∃ i j : NewSlotInfo, roundTimeout a i ≠ roundTimeout b j := by
  rintro ⟨a, b, i, j, hne⟩
  exact hne rfl

/-- C9 as amended: the per-round deadline is the fixed 5-second duration
`SOLUTION_TIMEOUT`, identical for every constructor argument and every round —
hard-coded, not configurable. -/
theorem C9_fixed_timeout (a : NewArgs) (i : NewSlotInfo) :
    roundTimeout a i = 5 ∧ SOLUTION_TIMEOUT = 5 := ⟨rfl, rfl⟩

/-- C10 counterexample: a registry holding one unsubscribed outlet passes the
`len == 0` check (length 1), yet every delivery fails, so the collection loop
starts with `expected_solutions_count = 0`; the first `None` submission then
decrements the counter at zero — the claimed "at least 1 on the path where it
is used" is false — and the `usize` decrement wraps to `2 ^ 64 - 1`. -/
theorem C10_counterexample :
    (unsubscribe_slot_info (subscribe_slot_info [] 1) 1).length ≠ 0
  ∧ (broadcast exInfo (unsubscribe_slot_info (subscribe_slot_info [] 1) 1)).1 = 0
  ∧ decrementsOnZero
      (broadcast exInfo (unsubscribe_slot_info (subscribe_slot_info [] 1) 1)).1
      [RoundMsg.submit none] = true
  ∧ collect 0 [RoundMsg.submit none] = RoundStatus.waiting (USIZE_MOD - 1) := by
  decide

/-- C10 as amended: when at least one delivery succeeded
(`expected_solutions_count ≥ 1`, a `usize`), no decrement is ever applied to a
zero counter: the loop breaks exactly when the counter reaches zero. -/
theorem C10_no_underflow_when_delivered (n : Nat) (t : List RoundMsg)
    (h1 : 1 ≤ n) (h2 : n < USIZE_MOD) :
    decrementsOnZero n t = false :=
  decrementsOnZero_of_pos t n h1 h2

/-- C10 witness: two successful deliveries, two `None` submissions. -/
theorem C10_no_underflow_when_delivered_witness :
    decrementsOnZero 2 [RoundMsg.submit none, RoundMsg.submit none] = false :=
  C10_no_underflow_when_delivered 2 [RoundMsg.submit none, RoundMsg.submit none]
    (by decide) (by decide)

end PoCRpc
